import Mathlib

/-!
Verification of the batch claim-and-process video fingerprinting pipeline
(`src/lib/video_processor/process_videos.py`) against its design document.

The Python source is shallowly embedded: pure computations become Lean
functions, the Supabase table becomes an explicit `Store` (a list of rows),
and each fallible external interaction (store round-trips, video download,
the vPDQ hashing capability) is parameterised by an explicit oracle so that
the control flow of the script is reproduced faithfully.
-/

/-- One vPDQ frame record, as stored in `vpdq_frame_hashes`: a dict with keys
`pdq_hash`, `quality`, `timestamp`.  The float timestamp is modelled as an
opaque integer; no claim computes with it. -/
structure Frame where
  pdq_hash : String
  quality : Int
  timestamp : Int
deriving DecidableEq

/-- One element of the JSON list parsed from `VPDQSignal.hash_from_file`
output.  `valid f` is a dict containing all of `pdq_hash`, `quality`,
`timestamp` (line 132); anything else is `invalid` and is skipped with a
warning (line 136). -/
inductive RawFrame where
  | valid (f : Frame)
  | invalid
deriving DecidableEq

/-- The possible behaviours of the hashing step observed by
`generate_vpdq_hashes` before filtering (lines 93-126 of the source):
every constructor except `frames` makes the function return `None`. -/
inductive RawOutput where
  /-- `VPDQSignal is None` (import failed), line 93. -/
  | hasherUnavailable
  /-- the downloaded file does not exist, line 96. -/
  | fileMissing
  /-- `hash_from_file` did not return a non-empty string, line 110. -/
  | notAString
  /-- `json.loads` raised, line 120. -/
  | notJson
  /-- the parsed JSON is not a list, line 117. -/
  | notAList
  /-- an exception escaped the hashing call, line 156. -/
  | hashException
  /-- the parsed JSON list of frame objects. -/
  | frames (raw : List RawFrame)
deriving DecidableEq

/-- `true` on every `RawOutput` that is not a parsed list of frame objects. -/
def RawOutput.malformed : RawOutput → Bool
  | .frames _ => false
  | _ => true

/-- Environment-derived configuration (lines 47-50): `VPDQ_BATCH_SIZE`
(default 5), `VPDQ_QUALITY_THRESHOLD` (default 90), `VPDQ_SUBSAMPLING_RATE`
(default 6).  The subsampling rate is modelled as a `Nat`; a negative rate
behaves in the source exactly like rate 0 (the `> 1` guard fails and no
subsampling occurs). -/
structure Config where
  batchSize : Nat
  qualityThreshold : Int
  subsamplingRate : Nat

/-- The default configuration. -/
def defaultConfig : Config := ⟨5, 90, 6⟩

/-- Projection of one parsed frame object: `some f` for a well-formed frame
dict, `none` otherwise. -/
def toFrame : RawFrame → Option Frame
  | .valid f => some f
  | .invalid => none

/-- The quality-filtering loop (lines 129-136): one pass that keeps a frame
iff it is a well-formed dict and `quality >= HASH_QUALITY_THRESHOLD`;
malformed entries are skipped with a warning. -/
def qualityFilter (threshold : Int) (raw : List RawFrame) : List Frame :=
  raw.filterMap fun rf =>
    match rf with
    | .valid f => if threshold ≤ f.quality then some f else none
    | .invalid => none

/-- Helper for `everyNth`: keeps the elements a countdown of `k` positions
away, then every `n`-th element after that. -/
def everyNthAux (n : Nat) : List α → Nat → List α
  | [], _ => []
  | x :: xs, 0 => x :: everyNthAux n xs (n - 1)
  | _ :: xs, k + 1 => everyNthAux n xs k

/-- Python's `xs[::n]` for a positive step `n`: the elements at positions
0, n, 2n, … (line 145 of the source).  Certified below by
`everyNth_getElem?`. -/
def everyNth (n : Nat) (xs : List α) : List α :=
  everyNthAux n xs 0

/-- The subsampling step (lines 144-149): slice with step
`HASH_SUBSAMPLING_RATE` when the rate is `> 1`, otherwise keep all
filtered frames. -/
def subsample_step (rate : Nat) (xs : List Frame) : List Frame :=
  if 1 < rate then everyNth rate xs else xs

/-- `generate_vpdq_hashes` (lines 91-158), from the parse of the raw hasher
output onwards: `none` models the Python `None` returns, `some []` the
"valid but empty" results (lines 124-126 and 140-141), and otherwise the
quality-filtered, subsampled frame list. -/
def generate_vpdq_hashes (cfg : Config) (out : RawOutput) : Option (List Frame) :=
  match out with
  | .hasherUnavailable => none
  | .fileMissing => none
  | .notAString => none
  | .notJson => none
  | .notAList => none
  | .hashException => none
  | .frames raw =>
    if raw.isEmpty then some []
    else
      let filtered_frames := qualityFilter cfg.qualityThreshold raw
      if filtered_frames.isEmpty then some []
      else some (subsample_step cfg.subsamplingRate filtered_frames)

/-! ### Lemmas about the frame filter -/

theorem everyNthAux_getElem? (n : Nat) (hn : 0 < n) :
    ∀ (xs : List α) (k i : Nat), (everyNthAux n xs k)[i]? = xs[k + n * i]? := by
  intro xs
  induction xs with
  | nil => intro k i; simp [everyNthAux]
  | cons x xs ih =>
    intro k i
    match k with
    | 0 =>
      match i with
      | 0 => simp [everyNthAux]
      | i + 1 =>
        have h1 : (everyNthAux n (x :: xs) 0)[i+1]? = (everyNthAux n xs (n - 1))[i]? := by
          simp [everyNthAux]
        rw [h1, ih (n - 1) i]
        have h2 : 0 + n * (i + 1) = (n - 1 + n * i) + 1 := by
          rw [Nat.mul_succ]; omega
        rw [h2, List.getElem?_cons_succ]
    | k + 1 =>
      have h1 : (everyNthAux n (x :: xs) (k + 1))[i]? = (everyNthAux n xs k)[i]? := by
        simp [everyNthAux]
      rw [h1, ih k i]
      have h2 : (k + 1) + n * i = (k + n * i) + 1 := by omega
      rw [h2, List.getElem?_cons_succ]

/-- `everyNth n xs` is exactly Python's `xs[::n]`: its `i`-th element is the
`(n*i)`-th element of `xs`. -/
theorem everyNth_getElem? (n : Nat) (hn : 0 < n) (xs : List α) (i : Nat) :
    (everyNth n xs)[i]? = xs[n * i]? := by
  have h := everyNthAux_getElem? n hn xs 0 i
  simpa [everyNth] using h

theorem everyNthAux_length (n : Nat) (hn : 0 < n) :
    ∀ (xs : List α) (k : Nat), k < n →
      (everyNthAux n xs k).length = (xs.length + (n - 1) - k) / n := by
  intro xs
  induction xs with
  | nil =>
    intro k hk
    simp only [everyNthAux, List.length_nil]
    rw [Nat.div_eq_of_lt (by omega)]
  | cons x xs ih =>
    intro k hk
    match k with
    | 0 =>
      have h1 : (everyNthAux n (x :: xs) 0).length = (everyNthAux n xs (n - 1)).length + 1 := by
        simp [everyNthAux]
      rw [h1, ih (n - 1) (by omega)]
      have h2 : xs.length + (n - 1) - (n - 1) = xs.length := by omega
      have h3 : (x :: xs).length + (n - 1) - 0 = xs.length + n := by
        simp only [List.length_cons]; omega
      rw [h2, h3, Nat.add_div_right _ hn]
    | k + 1 =>
      have h1 : (everyNthAux n (x :: xs) (k + 1)).length = (everyNthAux n xs k).length := by
        simp [everyNthAux]
      rw [h1, ih k (by omega)]
      have h2 : (x :: xs).length + (n - 1) - (k + 1) = xs.length + (n - 1) - k := by
        simp only [List.length_cons]; omega
      rw [h2]

/-- `everyNth` keeps exactly `⌈len / n⌉` elements. -/
theorem everyNth_length (n : Nat) (hn : 0 < n) (xs : List α) :
    (everyNth n xs).length = (xs.length + n - 1) / n := by
  have h := everyNthAux_length n hn xs 0 hn
  have h2 : xs.length + (n - 1) - 0 = xs.length + n - 1 := by omega
  rw [everyNth, h, h2]

theorem everyNthAux_sublist (n : Nat) :
    ∀ (xs : List α) (k : Nat), (everyNthAux n xs k).Sublist xs := by
  intro xs
  induction xs with
  | nil => intro k; simp [everyNthAux]
  | cons x xs ih =>
    intro k
    match k with
    | 0 => exact List.Sublist.cons₂ x (ih (n - 1))
    | k + 1 => exact List.Sublist.cons x (ih k)

theorem everyNth_sublist (n : Nat) (xs : List α) : (everyNth n xs).Sublist xs :=
  everyNthAux_sublist n xs 0

theorem subsample_step_sublist (rate : Nat) (xs : List Frame) :
    (subsample_step rate xs).Sublist xs := by
  unfold subsample_step
  split
  · exact everyNth_sublist rate xs
  · exact List.Sublist.refl xs

/-- The one-pass validate-and-filter loop equals: project out the well-formed
frames, then filter them by quality. -/
theorem qualityFilter_eq (threshold : Int) (raw : List RawFrame) :
    qualityFilter threshold raw =
      (raw.filterMap toFrame).filter (fun f => decide (threshold ≤ f.quality)) := by
  induction raw with
  | nil => rfl
  | cons rf raw ih =>
    match rf with
    | .invalid =>
      simpa [qualityFilter, toFrame, List.filterMap_cons] using ih
    | .valid f =>
      by_cases h : threshold ≤ f.quality
      · simp only [qualityFilter, List.filterMap_cons, if_pos h, toFrame, List.filter_cons,
          decide_eq_true h]
        exact congrArg (f :: ·) ih
      · simp only [qualityFilter, List.filterMap_cons, if_neg h, toFrame, List.filter_cons,
          decide_eq_false h]
        exact ih

theorem mem_qualityFilter (threshold : Int) (raw : List RawFrame) (f : Frame)
    (h : f ∈ qualityFilter threshold raw) : threshold ≤ f.quality := by
  rw [qualityFilter_eq] at h
  have := (List.mem_filter.mp h).2
  exact of_decide_eq_true this

/-! ### The per-item pipeline: `process_video` -/

/-- The per-item environment: what the external world does for one work item.
`unexpected` models an exception escaping the body of `process_video`
(caught at line 247); `downloadOk` models `download_video` returning a path
versus `None`; `rawOutput` models the behaviour of the hashing call. -/
structure ItemEnv where
  unexpected : Option String
  downloadOk : Bool
  rawOutput : RawOutput

/-- `process_video` (lines 231-258): returns the pair
`(vpdq_frame_objects, error_message)` exactly as the source builds it. -/
def process_video (cfg : Config) (env : ItemEnv) : Option (List Frame) × Option String :=
  match env.unexpected with
  | some e => (none, some e)
  | none =>
    if env.downloadOk then
      match generate_vpdq_hashes cfg env.rawOutput with
      | none => (none, some "vPDQ hash generation returned None (check logs).")
      | some hashes =>
        if hashes.isEmpty then
          (some hashes, some "vPDQ hash generation resulted in zero frames after filtering.")
        else
          (some hashes, none)
    else
      (none, some "Video download failed.")

/-! ### The shared store and its operations -/

/-- One row of the `meme_templates` table, restricted to the columns this
pipeline reads or writes.  `id` is the primary key (never null in the
store). -/
structure WorkItem where
  id : String
  source_video_url : Option String
  vpdq_frame_hashes : Option (List Frame)
  video_processing_started_at : Option Nat
  video_processed_at : Option Nat
  video_processing_error : Option String
deriving DecidableEq

/-- The shared table of work items. -/
abbrev Store := List WorkItem

/-- The candidate-selection predicate of the phase-1 select (lines 187-193):
`vpdq_frame_hashes IS NULL AND video_processing_started_at IS NULL AND
source_video_url IS NOT NULL`. -/
def isCandidate (r : WorkItem) : Bool :=
  r.vpdq_frame_hashes.isNone && r.video_processing_started_at.isNone
    && r.source_video_url.isSome

/-- A row of the confirmed batch as seen by `main`: the dict with keys `id`
and `source_video_url` (line 214), read defensively with `.get` at lines
300-301. -/
structure Template where
  id : Option String
  source_video_url : Option String
deriving DecidableEq

/-- Python truthiness test used at line 303 (`not template_id or not
video_url`): `None` and the empty string are falsy. -/
def pyFalsy : Option String → Bool
  | none => true
  | some s => s.isEmpty

/-- The row mutation performed by `update_template_status` (lines 262-267):
`video_processed_at` is set to now only when the hashes are not `None`,
the error and the hashes are stored, and the lock is cleared. -/
def update_row (now : Nat) (vpdq_hashes : Option (List Frame))
    (error_message : Option String) (r : WorkItem) : WorkItem :=
  { r with
    video_processed_at := if vpdq_hashes.isSome then some now else none
    video_processing_error := error_message
    vpdq_frame_hashes := vpdq_hashes
    video_processing_started_at := none }

/-- `update_template_status` (lines 260-279) as a store transformer: the
`UPDATE ... WHERE id = template_id` applies `update_row` to every matching
row; a store exception (`persistOk = false`) is caught at line 277 and
leaves the store unchanged (the lock remains set). -/
def update_template_status (now : Nat) (tid : Option String)
    (vpdq_hashes : Option (List Frame)) (error_message : Option String)
    (persistOk : Bool) (store : Store) : Store :=
  if persistOk then
    store.map fun r =>
      if tid = some r.id then update_row now vpdq_hashes error_message r else r
  else store

/-- Phase 1 of `lock_and_fetch_batch` (lines 187-193): up to
`PROCESSING_BATCH_SIZE` rows matching the candidate predicate. -/
def select_candidates (batchSize : Nat) (store : Store) : List WorkItem :=
  (store.filter isCandidate).take batchSize

/-- Phase 2 (lines 203-207): `UPDATE ... SET video_processing_started_at =
timestamp_now WHERE id IN candidate_ids AND video_processing_started_at IS
NULL`. -/
def conditional_lock (ids : List String) (now : Nat) (store : Store) : Store :=
  store.map fun r =>
    if r.id ∈ ids ∧ r.video_processing_started_at = none then
      { r with video_processing_started_at := some now }
    else r

/-- Phase 3 (lines 213-217): re-read `id, source_video_url` of the rows among
`candidate_ids` whose `video_processing_started_at` equals the timestamp
written in phase 2. -/
def fetch_locked (ids : List String) (now : Nat) (store : Store) : List Template :=
  (store.filter fun r =>
      decide (r.id ∈ ids ∧ r.video_processing_started_at = some now)).map
    fun r => ⟨some r.id, r.source_video_url⟩

/-- Which store round-trips of `lock_and_fetch_batch` raise a connectivity
error in this invocation. -/
structure StoreEnv where
  selectErr : Bool
  lockErr : Bool
  confirmErr : Bool

/-- `lock_and_fetch_batch` (lines 175-229).  The whole body is wrapped in
`try ... except Exception: logging.exception(...)`, and `locked_templates`
is assigned only after a successful phase 3, so any store error makes the
function return the empty list (lines 225-229); it never raises.  The pair
also returns the store as left behind (phase 2 may have set locks that a
phase-3 error then abandons, line 227). -/
def lock_and_fetch_batch (cfg : Config) (se : StoreEnv) (now : Nat)
    (store : Store) : List Template × Store :=
  if se.selectErr then ([], store)
  else
    let cands := select_candidates cfg.batchSize store
    if cands.isEmpty then ([], store)
    else
      let candidate_ids := cands.map WorkItem.id
      if se.lockErr then ([], store)
      else
        let store1 := conditional_lock candidate_ids now store
        if se.confirmErr then ([], store1)
        else (fetch_locked candidate_ids now store1, store1)

/-! ### The batch loop and `main` -/

/-- The per-item loop of `main` (lines 299-319): `envf i` gives the item
environment and the persistence outcome for the `i`-th confirmed template.
Returns `(processed_count, failed_count, final store)`.  The loop body
never raises: `process_video` and `update_template_status` catch their own
exceptions. -/
def runLoop (cfg : Config) (now : Nat) (envf : Nat → ItemEnv × Bool) :
    List Template → Nat → Store → Nat × Nat × Store
  | [], _, store => (0, 0, store)
  | t :: rest, i, store =>
    if pyFalsy t.id || pyFalsy t.source_video_url then
      let r := runLoop cfg now envf rest (i + 1) store
      (r.1, r.2.1 + 1, r.2.2)
    else
      let pr := process_video cfg (envf i).1
      let store1 := update_template_status now t.id pr.1 pr.2 (envf i).2 store
      let r := runLoop cfg now envf rest (i + 1) store1
      if pr.1.isSome && pr.2.isNone then (r.1 + 1, r.2.1, r.2.2)
      else (r.1, r.2.1 + 1, r.2.2)

/-- Outcome of one invocation of `main`: `fatal` is the `sys.exit(1)` on a
failed client initialisation (line 286); `done` carries the final counts
and the final store. -/
inductive MainResult where
  | fatal
  | done (processed : Nat) (failed : Nat) (store : Store)
deriving DecidableEq

/-- `main` (lines 281-322): initialise the client, claim a batch, process
each confirmed template sequentially, report counts.  (Named
`pipeline_main` because `main` is reserved in Lean.) -/
def pipeline_main (cfg : Config) (initOk : Bool) (se : StoreEnv)
    (envf : Nat → ItemEnv × Bool) (now : Nat) (store : Store) : MainResult :=
  if initOk then
    let lf := lock_and_fetch_batch cfg se now store
    if lf.1.isEmpty then .done 0 0 lf.2
    else
      let r := runLoop cfg now envf lf.1 0 lf.2
      .done r.1 r.2.1 r.2.2
  else .fatal

/-! ### Helper lemmas about the pipeline -/

/-- Case analysis of `process_video`: the outcome pair is always one of
"no hashes with an error", "empty hashes with an error", or "non-empty
hashes with no error". -/
theorem process_video_shape (cfg : Config) (env : ItemEnv) :
    ((process_video cfg env).1 = none ∧ (process_video cfg env).2.isSome = true) ∨
    ((process_video cfg env).1 = some [] ∧ (process_video cfg env).2.isSome = true) ∨
    (∃ l, l ≠ [] ∧ process_video cfg env = (some l, none)) := by
  obtain ⟨u, d, ro⟩ := env
  match u with
  | some e => left; simp [process_video]
  | none =>
    match d with
    | false => left; simp [process_video]
    | true =>
      match hg : generate_vpdq_hashes cfg ro with
      | none => left; simp [process_video, hg]
      | some hs =>
        match hs with
        | [] => right; left; simp [process_video, hg]
        | x :: t =>
          right; right
          exact ⟨x :: t, by simp, by simp [process_video, hg]⟩

/-- Unfolding of one iteration of the batch loop. -/
theorem runLoop_cons (cfg : Config) (now : Nat) (envf : Nat → ItemEnv × Bool)
    (t : Template) (rest : List Template) (i : Nat) (store : Store) :
    runLoop cfg now envf (t :: rest) i store =
      if pyFalsy t.id || pyFalsy t.source_video_url then
        ((runLoop cfg now envf rest (i + 1) store).1,
         (runLoop cfg now envf rest (i + 1) store).2.1 + 1,
         (runLoop cfg now envf rest (i + 1) store).2.2)
      else
        (fun r =>
          if (process_video cfg (envf i).1).1.isSome
              && (process_video cfg (envf i).1).2.isNone then
            (r.1 + 1, r.2.1, r.2.2)
          else (r.1, r.2.1 + 1, r.2.2))
          (runLoop cfg now envf rest (i + 1)
            (update_template_status now t.id (process_video cfg (envf i).1).1
              (process_video cfg (envf i).1).2 (envf i).2 store)) := rfl

/-- One iteration on a falsy template: skipped, counted failed, store left
alone. -/
theorem runLoop_cons_skip (cfg : Config) (now : Nat) (envf : Nat → ItemEnv × Bool)
    (t : Template) (rest : List Template) (i : Nat) (store : Store)
    (hc : (pyFalsy t.id || pyFalsy t.source_video_url) = true) :
    runLoop cfg now envf (t :: rest) i store =
      ((runLoop cfg now envf rest (i + 1) store).1,
       (runLoop cfg now envf rest (i + 1) store).2.1 + 1,
       (runLoop cfg now envf rest (i + 1) store).2.2) := by
  rw [runLoop_cons, if_pos hc]

/-- One iteration on a well-formed template: process, finalize, count. -/
theorem runLoop_cons_run (cfg : Config) (now : Nat) (envf : Nat → ItemEnv × Bool)
    (t : Template) (rest : List Template) (i : Nat) (store : Store)
    (hc : (pyFalsy t.id || pyFalsy t.source_video_url) = false) :
    runLoop cfg now envf (t :: rest) i store =
      if (process_video cfg (envf i).1).1.isSome
          && (process_video cfg (envf i).1).2.isNone then
        ((runLoop cfg now envf rest (i + 1)
            (update_template_status now t.id (process_video cfg (envf i).1).1
              (process_video cfg (envf i).1).2 (envf i).2 store)).1 + 1,
         (runLoop cfg now envf rest (i + 1)
            (update_template_status now t.id (process_video cfg (envf i).1).1
              (process_video cfg (envf i).1).2 (envf i).2 store)).2.1,
         (runLoop cfg now envf rest (i + 1)
            (update_template_status now t.id (process_video cfg (envf i).1).1
              (process_video cfg (envf i).1).2 (envf i).2 store)).2.2)
      else
        ((runLoop cfg now envf rest (i + 1)
            (update_template_status now t.id (process_video cfg (envf i).1).1
              (process_video cfg (envf i).1).2 (envf i).2 store)).1,
         (runLoop cfg now envf rest (i + 1)
            (update_template_status now t.id (process_video cfg (envf i).1).1
              (process_video cfg (envf i).1).2 (envf i).2 store)).2.1 + 1,
         (runLoop cfg now envf rest (i + 1)
            (update_template_status now t.id (process_video cfg (envf i).1).1
              (process_video cfg (envf i).1).2 (envf i).2 store)).2.2) := by
  rw [runLoop_cons, if_neg (by simp [hc])]

/-- Each iteration of the batch loop adds exactly one to exactly one of the
two counters. -/
theorem runLoop_counts (cfg : Config) (now : Nat) (envf : Nat → ItemEnv × Bool) :
    ∀ (ts : List Template) (i : Nat) (store : Store),
      (runLoop cfg now envf ts i store).1 + (runLoop cfg now envf ts i store).2.1
        = ts.length := by
  intro ts
  induction ts with
  | nil => intro i store; simp [runLoop]
  | cons t rest ih =>
    intro i store
    by_cases hc : (pyFalsy t.id || pyFalsy t.source_video_url) = true
    · rw [runLoop_cons_skip cfg now envf t rest i store hc]
      have := ih (i + 1) store
      simp only [List.length_cons]
      omega
    · have hc2 : (pyFalsy t.id || pyFalsy t.source_video_url) = false := by
        revert hc; cases (pyFalsy t.id || pyFalsy t.source_video_url) <;> simp
      rw [runLoop_cons_run cfg now envf t rest i store hc2]
      have := ih (i + 1) (update_template_status now t.id (process_video cfg (envf i).1).1
        (process_video cfg (envf i).1).2 (envf i).2 store)
      by_cases hp : ((process_video cfg (envf i).1).1.isSome
          && (process_video cfg (envf i).1).2.isNone) = true
      · rw [if_pos hp]
        simp only [List.length_cons]
        omega
      · rw [if_neg hp]
        simp only [List.length_cons]
        omega

/-! ### Fixtures used by the concrete counterexamples and witnesses -/

/-- A frame with quality 95 (above the default threshold 90). -/
def frameA : Frame := ⟨"f0", 95, 0⟩

/-- An item environment where download succeeds and hashing parses to the
empty list (a valid video with no usable frames). -/
def envEmpty : ItemEnv := ⟨none, true, .frames []⟩

/-- An item environment where the parsed list contains one malformed frame
object followed by one well-formed high-quality frame. -/
def envInv : ItemEnv := ⟨none, true, .frames [.invalid, .valid frameA]⟩

/-- An item environment where the hasher output fails to parse as JSON. -/
def envNJ : ItemEnv := ⟨none, true, .notJson⟩

/-- Per-item oracle used by concrete runs: every item behaves like
`envEmpty` and persistence succeeds. -/
def envf0 : Nat → ItemEnv × Bool := fun _ => (envEmpty, true)

/-- A row currently claimed by this run (lock set, nothing processed). -/
def sampleClaimed : WorkItem := ⟨"t1", some "u", none, some 3, none, none⟩

/-- A store environment where the phase-1 select raises a connectivity
error. -/
def seErr : StoreEnv := ⟨true, false, false⟩

/-- A store environment with no connectivity errors. -/
def seOk : StoreEnv := ⟨false, false, false⟩

/-- An unclaimed, unprocessed row with a source URL: a candidate. -/
def candRow : WorkItem := ⟨"c1", some "u", none, none, none, none⟩

/-- A confirmed batch row whose `id` is missing. -/
def tFalsy : Template := ⟨none, some "u"⟩

/-- A well-formed confirmed batch row. -/
def tGood : Template := ⟨some "t1", some "u"⟩

/-! ### C1 -/

/-- C1, counterexample: the claim says the finalize-status update sets
`processedAt` to a non-null timestamp for Failed outcomes too.  On the
concrete Failed finalization of a claimed row (download failed: hashes
`None`, error non-null), the source's update writes `video_processed_at =
None`, because line 263 guards the timestamp with
`if vpdq_hashes is not None else None`.  So a Failed item ends with
`processedAt IS NULL`, refuting the claim as stated. -/
theorem update_row_failed_leaves_processedAt_null :
    (update_row 7 none (some "Video download failed.") sampleClaimed).video_processing_error
        = some "Video download failed." ∧
    (update_row 7 none (some "Video download failed.") sampleClaimed).video_processed_at
        = none := by
  decide

/-- C1 (amended): the single finalize-status update stores the fingerprint
and the error message and clears `claimedAt` to null, but sets
`processedAt` to a non-null 'now' timestamp only when the fingerprint is
non-null (Completed or empty-fingerprint outcomes); for a Failed outcome
(null fingerprint) it sets `processedAt` to null. -/
theorem update_row_spec (now : Nat) (vpdq_hashes : Option (List Frame))
    (error_message : Option String) (r : WorkItem) :
    (update_row now vpdq_hashes error_message r).vpdq_frame_hashes = vpdq_hashes ∧
    (update_row now vpdq_hashes error_message r).video_processing_error = error_message ∧
    (update_row now vpdq_hashes error_message r).video_processing_started_at = none ∧
    (update_row now vpdq_hashes error_message r).video_processed_at
      = (if vpdq_hashes.isSome then some now else none) :=
  ⟨rfl, rfl, rfl, rfl⟩

/-! ### C3 -/

/-- C3, counterexample: the claim says a well-formed but empty frame
sequence yields Completed with a null error, counted as a success.  On the
concrete run where hashing parses to the empty list, the source sets the
error message "vPDQ hash generation resulted in zero frames after
filtering." (line 244) and the loop counts the item as failed (line 315
requires `error_msg is None`), refuting the claim. -/
theorem empty_hashes_counted_failed :
    (process_video defaultConfig envEmpty).2
        = some "vPDQ hash generation resulted in zero frames after filtering." ∧
    (runLoop defaultConfig 0 envf0 [tGood] 0 []).1 = 0 ∧
    (runLoop defaultConfig 0 envf0 [tGood] 0 []).2.1 = 1 := by
  decide

/-- C3 (amended): for every claimed work item whose hashing step returns a
well-formed but empty frame sequence, the outcome stores an empty
(non-null) fingerprint together with a NON-null "zero frames after
filtering" error message, and the item is counted as a failure, not a
success (`processedAt` is still set, since the fingerprint is non-null). -/
theorem empty_hashes_outcome (cfg : Config) (env : ItemEnv)
    (hu : env.unexpected = none) (hd : env.downloadOk = true)
    (hg : generate_vpdq_hashes cfg env.rawOutput = some []) :
    process_video cfg env =
      (some [], some "vPDQ hash generation resulted in zero frames after filtering.") := by
  obtain ⟨u, d, ro⟩ := env
  simp only at hu hd hg
  subst hu hd
  simp [process_video, hg]

/-- Witness for C3's amended theorem at a concrete input. -/
theorem empty_hashes_outcome_witness :
    process_video defaultConfig envEmpty =
      (some [], some "vPDQ hash generation resulted in zero frames after filtering.") :=
  empty_hashes_outcome defaultConfig envEmpty rfl rfl rfl

/-! ### C4 -/

/-- C4, counterexample: the claim says the stored fingerprint is non-null
iff the stored error is null.  After finalizing the concrete
empty-frame-sequence outcome, the stored row has a non-null (empty list)
fingerprint AND a non-null error message: both fields are set at once,
refuting the equivalence. -/
theorem empty_fingerprint_both_fields_set :
    (update_row 7 (process_video defaultConfig envEmpty).1
        (process_video defaultConfig envEmpty).2 sampleClaimed).vpdq_frame_hashes.isSome
      = true ∧
    (update_row 7 (process_video defaultConfig envEmpty).1
        (process_video defaultConfig envEmpty).2 sampleClaimed).video_processing_error.isSome
      = true := by
  decide

/-- C4 (amended): on every finalized item the stored error message is null
iff the stored fingerprint is non-null AND non-empty.  A null fingerprint
implies a non-null error, but the empty-fingerprint outcome stores both a
(empty) fingerprint and an error, so "fingerprint non-null iff error null"
fails exactly there. -/
theorem error_none_iff_nonempty_fingerprint (cfg : Config) (env : ItemEnv)
    (now : Nat) (r : WorkItem) :
    (update_row now (process_video cfg env).1 (process_video cfg env).2 r).video_processing_error
        = none ↔
      ((update_row now (process_video cfg env).1
          (process_video cfg env).2 r).vpdq_frame_hashes.isSome = true ∧
       (update_row now (process_video cfg env).1
          (process_video cfg env).2 r).vpdq_frame_hashes ≠ some []) := by
  show (process_video cfg env).2 = none ↔
    ((process_video cfg env).1.isSome = true ∧ (process_video cfg env).1 ≠ some [])
  rcases process_video_shape cfg env with ⟨h1, h2⟩ | ⟨h1, h2⟩ | ⟨l, hl, hpv⟩
  · constructor
    · intro h; rw [h] at h2; simp at h2
    · rintro ⟨hs, -⟩; rw [h1] at hs; simp at hs
  · constructor
    · intro h; rw [h] at h2; simp at h2
    · rintro ⟨-, hne⟩; exact absurd h1 hne
  · rw [hpv]
    simp [hl]

/-! ### C6 -/

/-- C6 (confirmed): for a quality-filtered sequence of length k and stride
N, the subsampling step keeps exactly the elements at positions 0, N, 2N, …
(its i-th output element is the (N*i)-th input element), producing exactly
⌈k / N⌉ = (k + N - 1) / N frames when N > 1 and all k frames when N ≤ 1. -/
theorem subsample_step_spec (rate : Nat) (xs : List Frame) :
    (1 < rate →
      (subsample_step rate xs).length = (xs.length + rate - 1) / rate ∧
      ∀ i : Nat, (subsample_step rate xs)[i]? = xs[rate * i]?) ∧
    (rate ≤ 1 → subsample_step rate xs = xs) := by
  constructor
  · intro h
    have h0 : 0 < rate := by omega
    constructor
    · rw [subsample_step, if_pos h]
      exact everyNth_length rate h0 xs
    · intro i
      rw [subsample_step, if_pos h]
      exact everyNth_getElem? rate h0 xs i
  · intro h
    rw [subsample_step, if_neg (by omega)]

/-- Witness for C6 at the default stride 6 on 12 filtered frames
(the spec's Scenario B count: (12 + 6 - 1) / 6 = 2). -/
theorem subsample_step_spec_witness :
    (subsample_step 6 (List.replicate 12 frameA)).length
      = ((List.replicate 12 frameA).length + 6 - 1) / 6 :=
  ((subsample_step_spec 6 (List.replicate 12 frameA)).1 (by decide)).1

/-! ### C7 -/

/-- C7 (confirmed): every frame in a persisted fingerprint has quality at
least the configured threshold, and the quality-filtering step preserves
the relative order of the kept frames: its output is a sublist of the
well-formed frames of the raw sequence, in order. -/
theorem quality_filter_spec (cfg : Config) (out : RawOutput) (l : List Frame)
    (raw : List RawFrame) :
    (generate_vpdq_hashes cfg out = some l →
      ∀ f ∈ l, cfg.qualityThreshold ≤ f.quality) ∧
    (qualityFilter cfg.qualityThreshold raw).Sublist (raw.filterMap toFrame) := by
  constructor
  · intro hg f hf
    match out with
    | .hasherUnavailable | .fileMissing | .notAString | .notJson | .notAList
    | .hashException =>
      simp [generate_vpdq_hashes] at hg
    | .frames raw2 =>
      simp only [generate_vpdq_hashes] at hg
      by_cases h1 : raw2.isEmpty
      · rw [if_pos h1] at hg
        injection hg with hg
        subst hg
        exact absurd hf (by simp)
      · rw [if_neg h1] at hg
        by_cases h2 : (qualityFilter cfg.qualityThreshold raw2).isEmpty
        · rw [if_pos h2] at hg
          injection hg with hg
          subst hg
          exact absurd hf (by simp)
        · rw [if_neg h2] at hg
          injection hg with hg
          subst hg
          have hsub := subsample_step_sublist cfg.subsamplingRate
            (qualityFilter cfg.qualityThreshold raw2)
          exact mem_qualityFilter cfg.qualityThreshold raw2 f (hsub.mem hf)
  · rw [qualityFilter_eq]
    exact List.filter_sublist _

/-- Witness for C7 at a concrete run: the one persisted frame has quality
at least the default threshold. -/
theorem quality_filter_spec_witness : defaultConfig.qualityThreshold ≤ frameA.quality :=
  (quality_filter_spec defaultConfig (.frames [.valid frameA]) [frameA] []).1
    (by decide) frameA (by decide)

/-! ### C8 -/

/-- C8, counterexample: the claim says any malformation of the frame-record
response yields a hard Failed outcome rather than a fingerprint built from
the remaining records.  On the concrete response whose parsed list holds a
malformed entry followed by a well-formed high-quality frame, the source
skips the malformed entry (line 136) and Completes with a fingerprint
built from the remaining record — not a Failed outcome. -/
theorem invalid_frame_skipped_not_failed :
    process_video defaultConfig envInv = (some [frameA], none) := by
  decide

/-- C8 (amended): a failure of the hashing capability or a top-level
malformation of its response (capability unavailable, missing file,
non-string output, JSON parse failure, non-list JSON, exception) yields a
hard Failed outcome with the hash-generation-failure reason; but a
malformed individual frame record inside a well-formed list is skipped,
and the fingerprint is built from the remaining records. -/
theorem hash_malformed_outcomes (cfg : Config) (env : ItemEnv) (raw : List RawFrame) :
    (env.unexpected = none → env.downloadOk = true → env.rawOutput.malformed = true →
      process_video cfg env
        = (none, some "vPDQ hash generation returned None (check logs).")) ∧
    generate_vpdq_hashes cfg (.frames (RawFrame.invalid :: raw))
      = generate_vpdq_hashes cfg (.frames raw) := by
  constructor
  · intro hu hd hm
    obtain ⟨u, d, ro⟩ := env
    simp only at hu hd hm
    subst hu hd
    have hnone : generate_vpdq_hashes cfg ro = none := by
      match ro with
      | .frames raw2 => simp [RawOutput.malformed] at hm
      | .hasherUnavailable | .fileMissing | .notAString | .notJson | .notAList
      | .hashException => rfl
    simp [process_video, hnone]
  · match raw with
    | [] => rfl
    | rf :: rest =>
      have hq : qualityFilter cfg.qualityThreshold (RawFrame.invalid :: rf :: rest)
          = qualityFilter cfg.qualityThreshold (rf :: rest) := by
        simp [qualityFilter]
      simp only [generate_vpdq_hashes, hq, List.isEmpty_cons]

/-- Witness for C8's amended theorem: a JSON parse failure yields the
Failed outcome. -/
theorem hash_malformed_outcomes_witness :
    process_video defaultConfig envNJ
      = (none, some "vPDQ hash generation returned None (check logs).") :=
  (hash_malformed_outcomes defaultConfig envNJ []).1 rfl rfl rfl

/-! ### C9 -/

/-- C9 (confirmed): the batch loop is a total function (no per-item failure
escapes it: `process_video` and `update_template_status` catch their own
exceptions), and one invocation of the pipeline that terminates normally
reports Completed and Failed counts summing exactly to the number of
confirmed (claimed) templates: each claimed item is counted exactly once. -/
theorem counts_sum_to_claimed (cfg : Config) (initOk : Bool) (se : StoreEnv)
    (envf : Nat → ItemEnv × Bool) (now : Nat) (store : Store)
    (p f : Nat) (s : Store)
    (h : pipeline_main cfg initOk se envf now store = .done p f s) :
    p + f = (lock_and_fetch_batch cfg se now store).1.length := by
  simp only [pipeline_main] at h
  by_cases hi : initOk
  · rw [if_pos hi] at h
    by_cases he : (lock_and_fetch_batch cfg se now store).1.isEmpty
    · rw [if_pos he] at h
      injection h with h1 h2 h3
      rw [List.isEmpty_iff] at he
      rw [he, ← h1, ← h2]
      rfl
    · rw [if_neg he] at h
      injection h with h1 h2 h3
      rw [← h1, ← h2]
      exact runLoop_counts cfg now envf (lock_and_fetch_batch cfg se now store).1 0
        (lock_and_fetch_batch cfg se now store).2
  · rw [if_neg hi] at h
    cases h

/-- Witness for C9 at a concrete run. -/
theorem counts_sum_to_claimed_witness :
    (0 : Nat) + 0 = (lock_and_fetch_batch defaultConfig seOk 0 []).1.length :=
  counts_sum_to_claimed defaultConfig true seOk envf0 0 [] 0 0 [] (by decide)

/-! ### C10 -/

/-- C10 (confirmed): a confirmed batch row with a missing/null (or empty,
by Python truthiness) id or source URL is counted as Failed and skipped
with no finalize-status call: the rest of the batch continues from the
very same store, so nothing is written for the item — no `processedAt`,
fingerprint or error — and its `claimedAt` lock is never cleared. -/
theorem falsy_template_skipped (cfg : Config) (now : Nat)
    (envf : Nat → ItemEnv × Bool) (t : Template) (rest : List Template)
    (i : Nat) (store : Store)
    (h : pyFalsy t.id = true ∨ pyFalsy t.source_video_url = true) :
    runLoop cfg now envf (t :: rest) i store =
      ((runLoop cfg now envf rest (i + 1) store).1,
       (runLoop cfg now envf rest (i + 1) store).2.1 + 1,
       (runLoop cfg now envf rest (i + 1) store).2.2) := by
  have hc : (pyFalsy t.id || pyFalsy t.source_video_url) = true := by
    rcases h with h | h <;> simp [h]
  exact runLoop_cons_skip cfg now envf t rest i store hc

/-- Witness for C10: a batch row with a null id is skipped and counted
failed. -/
theorem falsy_template_skipped_witness :
    runLoop defaultConfig 0 envf0 [tFalsy] 0 [] =
      ((runLoop defaultConfig 0 envf0 [] 1 []).1,
       (runLoop defaultConfig 0 envf0 [] 1 []).2.1 + 1,
       (runLoop defaultConfig 0 envf0 [] 1 []).2.2) :=
  falsy_template_skipped defaultConfig 0 envf0 tFalsy [] 0 [] (Or.inl (by decide))

/-! ### Store-preservation lemmas (for C2) -/

/-- The finalize update leaves untouched every row whose id is not the
targeted template id. -/
theorem update_template_status_getElem? (now : Nat) (tid : Option String)
    (vh : Option (List Frame)) (em : Option String) (ok : Bool) (store : Store)
    (j : Nat) (r : WorkItem) (hj : store[j]? = some r) (hne : tid ≠ some r.id) :
    (update_template_status now tid vh em ok store)[j]? = some r := by
  by_cases hok : ok = true
  · simp only [update_template_status, if_pos hok, List.getElem?_map, hj]
    simp [hne]
  · simp only [update_template_status, if_neg hok]
    exact hj

/-- The conditional lock leaves untouched every row whose id is outside the
candidate-id list. -/
theorem conditional_lock_getElem? (ids : List String) (now : Nat) (store : Store)
    (j : Nat) (r : WorkItem) (hj : store[j]? = some r) (hni : r.id ∉ ids) :
    (conditional_lock ids now store)[j]? = some r := by
  simp only [conditional_lock, List.getElem?_map, hj]
  simp [hni]

/-- The batch loop leaves untouched every row whose id matches none of the
processed templates. -/
theorem runLoop_store_getElem? (cfg : Config) (now : Nat)
    (envf : Nat → ItemEnv × Bool) :
    ∀ (ts : List Template) (i : Nat) (store : Store) (j : Nat) (r : WorkItem),
      store[j]? = some r → (∀ t ∈ ts, t.id ≠ some r.id) →
      (runLoop cfg now envf ts i store).2.2[j]? = some r := by
  intro ts
  induction ts with
  | nil => intro i store j r hj hts; simpa [runLoop] using hj
  | cons t rest ih =>
    intro i store j r hj hts
    by_cases hc : (pyFalsy t.id || pyFalsy t.source_video_url) = true
    · rw [runLoop_cons_skip cfg now envf t rest i store hc]
      exact ih (i + 1) store j r hj fun t2 ht2 => hts t2 (List.mem_cons_of_mem t ht2)
    · have hc2 : (pyFalsy t.id || pyFalsy t.source_video_url) = false := by
        revert hc; cases (pyFalsy t.id || pyFalsy t.source_video_url) <;> simp
      rw [runLoop_cons_run cfg now envf t rest i store hc2]
      have hstore1 := update_template_status_getElem? now t.id
        (process_video cfg (envf i).1).1 (process_video cfg (envf i).1).2
        (envf i).2 store j r hj (hts t (List.mem_cons_self t rest))
      have hrec := ih (i + 1) _ j r hstore1
        fun t2 ht2 => hts t2 (List.mem_cons_of_mem t ht2)
      by_cases hp : ((process_video cfg (envf i).1).1.isSome
          && (process_video cfg (envf i).1).2.isNone) = true
      · rw [if_pos hp]; exact hrec
      · rw [if_neg hp]; exact hrec

/-- Every confirmed template's id is the id of a row among the candidate
ids. -/
theorem fetch_locked_mem (ids : List String) (now : Nat) (store : Store)
    (t : Template) (ht : t ∈ fetch_locked ids now store) :
    ∃ rid ∈ ids, t.id = some rid := by
  simp only [fetch_locked] at ht
  obtain ⟨r, hr, hrt⟩ := List.mem_map.mp ht
  have hf := (List.mem_filter.mp hr).2
  have hf2 := of_decide_eq_true hf
  exact ⟨r.id, hf2.1, by rw [← hrt]⟩

/-- With distinct ids, a row holding a non-null fingerprint is never among
the phase-1 candidates. -/
theorem completed_not_selected (store : Store) (bs : Nat) (j : Nat) (r : WorkItem)
    (hnd : (store.map WorkItem.id).Nodup) (hj : store[j]? = some r)
    (hr : r.vpdq_frame_hashes.isSome = true) :
    r.id ∉ (select_candidates bs store).map WorkItem.id := by
  intro hmem
  obtain ⟨c, hc, hcid⟩ := List.mem_map.mp hmem
  rw [select_candidates] at hc
  have hc2 : c ∈ store.filter isCandidate := List.mem_of_mem_take hc
  have hc3 := List.mem_filter.mp hc2
  have hrmem : r ∈ store := List.getElem?_mem hj
  have hceq : c = r := List.inj_on_of_nodup_map hnd hc3.1 hrmem hcid
  have hcand := hc3.2
  rw [hceq] at hcand
  cases hv : r.vpdq_frame_hashes with
  | none => rw [hv] at hr; simp at hr
  | some l => rw [isCandidate, hv] at hcand; simp at hcand

/-! ### C2 -/

/-- C2, counterexample: the claim says a Terminal (Completed or Failed) item
never again satisfies the candidate predicate.  Finalizing a concrete
claimed item as Failed (download failed) stores a null fingerprint, a null
`processedAt`, and clears the lock — after which the row satisfies the
candidate predicate again and is selected by the phase-1 select of the
next run, so Failed items are reprocessed. -/
theorem failed_item_is_candidate_again :
    isCandidate (update_row 7 none (some "Video download failed.") sampleClaimed) = true ∧
    select_candidates 5 [update_row 7 none (some "Video download failed.") sampleClaimed]
      = [update_row 7 none (some "Video download failed.") sampleClaimed] := by
  decide

/-- A finished Completed row: non-null fingerprint, lock cleared. -/
def completedRow : WorkItem := ⟨"d1", some "u", some [frameA], none, some 5, none⟩

/-- C2 (amended): only Completed items are protected from reprocessing.  In
a store with distinct ids, a row whose fingerprint is non-null (Completed,
including the empty fingerprint) does not satisfy the candidate predicate,
so a later batch run never selects it and leaves the row byte-for-byte
unchanged.  A Failed row (null fingerprint, lock cleared) satisfies the
candidate predicate again and is re-selected (see the counterexample). -/
theorem completed_item_untouched_by_run (cfg : Config) (initOk : Bool)
    (se : StoreEnv) (envf : Nat → ItemEnv × Bool) (now : Nat) (store : Store)
    (j : Nat) (r : WorkItem) (p f : Nat) (s : Store)
    (hnd : (store.map WorkItem.id).Nodup)
    (hj : store[j]? = some r)
    (hr : r.vpdq_frame_hashes.isSome = true)
    (hmain : pipeline_main cfg initOk se envf now store = .done p f s) :
    isCandidate r = false ∧ s[j]? = some r := by
  have hni : r.id ∉ (select_candidates cfg.batchSize store).map WorkItem.id :=
    completed_not_selected store cfg.batchSize j r hnd hj hr
  constructor
  · cases hv : r.vpdq_frame_hashes with
    | none => rw [hv] at hr; simp at hr
    | some l => simp [isCandidate, hv]
  · simp only [pipeline_main, lock_and_fetch_batch] at hmain
    by_cases hi : initOk = true
    case neg => rw [if_neg hi] at hmain; cases hmain
    rw [if_pos hi] at hmain
    by_cases h1 : se.selectErr = true
    · rw [if_pos h1] at hmain
      simp only [List.isEmpty_nil, if_pos rfl] at hmain
      injection hmain with hp hf hs
      rw [← hs]; exact hj
    · rw [if_neg h1] at hmain
      by_cases h2 : (select_candidates cfg.batchSize store).isEmpty = true
      · rw [if_pos h2] at hmain
        simp only [List.isEmpty_nil, if_pos rfl] at hmain
        injection hmain with hp hf hs
        rw [← hs]; exact hj
      · rw [if_neg h2] at hmain
        by_cases h3 : se.lockErr = true
        · rw [if_pos h3] at hmain
          simp only [List.isEmpty_nil, if_pos rfl] at hmain
          injection hmain with hp hf hs
          rw [← hs]; exact hj
        · rw [if_neg h3] at hmain
          have hlock : (conditional_lock ((select_candidates cfg.batchSize store).map
              WorkItem.id) now store)[j]? = some r :=
            conditional_lock_getElem? _ now store j r hj hni
          by_cases h4 : se.confirmErr = true
          · rw [if_pos h4] at hmain
            simp only [List.isEmpty_nil, if_pos rfl] at hmain
            injection hmain with hp hf hs
            rw [← hs]; exact hlock
          · rw [if_neg h4] at hmain
            by_cases h5 : (fetch_locked ((select_candidates cfg.batchSize store).map
                WorkItem.id) now (conditional_lock ((select_candidates cfg.batchSize
                store).map WorkItem.id) now store)).isEmpty = true
            · rw [if_pos h5] at hmain
              injection hmain with hp hf hs
              rw [← hs]; exact hlock
            · rw [if_neg h5] at hmain
              injection hmain with hp hf hs
              rw [← hs]
              refine runLoop_store_getElem? cfg now envf _ 0 _ j r hlock ?_
              intro t ht hteq
              obtain ⟨rid, hrid, htid⟩ := fetch_locked_mem _ now _ t ht
              rw [htid] at hteq
              injection hteq with hteq
              rw [hteq] at hrid
              exact hni (by
                have : r.id ∈ ((select_candidates cfg.batchSize store).map WorkItem.id) :=
                  hrid
                exact this)

/-- Witness for C2's amended theorem on a one-row store holding a Completed
item. -/
theorem completed_item_untouched_witness :
    isCandidate completedRow = false ∧ ([completedRow] : Store)[0]? = some completedRow :=
  completed_item_untouched_by_run defaultConfig true seOk envf0 9 [completedRow] 0
    completedRow 0 0 [completedRow] (by decide) (by decide) (by decide) (by decide)

/-! ### C5 -/

/-- C5, counterexample: the claim says store-connectivity errors abort the
whole batch invocation rather than being absorbed and treated as an empty
batch.  On a concrete store that does hold an eligible candidate, a
connectivity error in the phase-1 select is caught inside
`lock_and_fetch_batch` (lines 225-229) and the invocation terminates
normally with zero processed and zero failed — exactly the empty-batch
outcome, not an abort. -/
theorem store_error_absorbed_as_empty_batch :
    pipeline_main defaultConfig true seErr envf0 0 [candRow] = .done 0 0 [candRow] ∧
    [candRow].filter isCandidate ≠ [] := by
  decide

/-- Under any phase error, or with no eligible work, the claim phase
returns the empty template list. -/
theorem lock_and_fetch_empty (cfg : Config) (se : StoreEnv) (now : Nat)
    (store : Store)
    (h : se.selectErr = true ∨ se.lockErr = true ∨ se.confirmErr = true ∨
      store.filter isCandidate = []) :
    (lock_and_fetch_batch cfg se now store).1 = [] := by
  have hcand : store.filter isCandidate = [] →
      (select_candidates cfg.batchSize store).isEmpty = true := by
    intro hf
    rw [select_candidates, hf]
    simp
  unfold lock_and_fetch_batch
  by_cases h1 : se.selectErr = true
  · rw [if_pos h1]
  · rw [if_neg h1]
    by_cases h2 : (select_candidates cfg.batchSize store).isEmpty = true
    · rw [if_pos h2]
    · rw [if_neg h2]
      by_cases h3 : se.lockErr = true
      · rw [if_pos h3]
      · rw [if_neg h3]
        by_cases h4 : se.confirmErr = true
        · rw [if_pos h4]
        · rcases h with h | h | h | h
          · exact absurd h h1
          · exact absurd h h3
          · exact absurd h h4
          · exact absurd (hcand h) h2

/-- C5 (amended): the batch-claim operation never throws at all.  With zero
eligible work it yields an empty result and the invocation terminates
normally; a store-connectivity error in any claim phase (select, lock,
confirm) is caught, logged and likewise absorbed as an empty batch, so the
invocation still terminates normally with zero counts.  Only a failure to
initialise the store client at startup aborts the invocation
(`sys.exit(1)`). -/
theorem main_error_handling (cfg : Config) (se : StoreEnv)
    (envf : Nat → ItemEnv × Bool) (now : Nat) (store : Store) :
    (pipeline_main cfg false se envf now store = .fatal) ∧
    (∃ p f s, pipeline_main cfg true se envf now store = .done p f s) ∧
    (se.selectErr = true ∨ se.lockErr = true ∨ se.confirmErr = true ∨
        store.filter isCandidate = [] →
      ∃ s2, pipeline_main cfg true se envf now store = .done 0 0 s2) := by
  refine ⟨rfl, ?_, ?_⟩
  · by_cases he : (lock_and_fetch_batch cfg se now store).1.isEmpty = true
    · exact ⟨0, 0, (lock_and_fetch_batch cfg se now store).2, by
        simp only [pipeline_main]
        rw [if_pos trivial, if_pos he]⟩
    · exact ⟨(runLoop cfg now envf (lock_and_fetch_batch cfg se now store).1 0
          (lock_and_fetch_batch cfg se now store).2).1,
        (runLoop cfg now envf (lock_and_fetch_batch cfg se now store).1 0
          (lock_and_fetch_batch cfg se now store).2).2.1,
        (runLoop cfg now envf (lock_and_fetch_batch cfg se now store).1 0
          (lock_and_fetch_batch cfg se now store).2).2.2, by
        simp only [pipeline_main]
        rw [if_pos trivial, if_neg he]⟩
  · intro h
    have hempty := lock_and_fetch_empty cfg se now store h
    refine ⟨(lock_and_fetch_batch cfg se now store).2, ?_⟩
    simp only [pipeline_main]
    rw [if_pos trivial, if_pos (by rw [hempty]; rfl)]

/-- Witness for C5's amended theorem: a select-phase connectivity error on a
store with a candidate still ends in a normal zero-count termination. -/
theorem main_error_handling_witness :
    ∃ s2, pipeline_main defaultConfig true seErr envf0 0 [candRow] = .done 0 0 s2 :=
  (main_error_handling defaultConfig seErr envf0 0 [candRow]).2.2 (Or.inl rfl)
